import Mathlib

/-!
Shallow embedding of `src/baa/main.py` (the big-album-art Flask app),
covering the discography aggregator (`artist_albums`), the
currently-playing lookup (`get_data`), and the login-callback account
upsert (`login_callback`).  External HTTP responses are modelled as data
the handlers consume; database state is modelled as a list of records.
-/

/-- A raw album item as the provider's JSON delivers it to
`artist_albums`: the code reads `x["images"][0]["url"]`,
`x.get("release_date", "?")`, `x["external_urls"].get("spotify", "?")`
and `x["album_type"]`.  `images` holds the image URLs, optional fields
are `Option`. -/
structure RawAlbum where
  images : List String
  release_date : Option String
  spotify_url : Option String
  album_type : String
deriving DecidableEq, Repr

/-- The normalized album record built by the mapping at
`main.py:229-234`. -/
structure Album where
  image_url : String
  release_date : String
  spotify_url : String
  type : String
deriving DecidableEq, Repr

/-- Normalization of one raw item (`main.py:229-234`).  Returns `none`
when the image list is empty, where the source would raise an
out-of-range error (the unhandled edge case of spec section 9). -/
def normalizeAlbum (x : RawAlbum) : Option Album :=
  match x.images.head? with
  | none => none
  | some img =>
      some { image_url := img,
             release_date := x.release_date.getD "?",
             spotify_url := x.spotify_url.getD "?",
             type := x.album_type }

/-- One page response from the provider's artist-albums endpoint, as
seen by the loop at `main.py:207-226`: either an HTTP 204 with no body,
or a parsed JSON body with an optional `items` list and an optional
`next` url. -/
inductive PageResponse (α : Type) where
  | noContent : PageResponse α
  | body : Option (List α) → Option String → PageResponse α
deriving DecidableEq, Repr

/-- Outcome of the pagination loop in `artist_albums`
(`main.py:207-226`): the accumulated items, the "whoops 204" early
return, the "uh oh no items" early return, or `noResponse` when the
modelled provider supplies no response for a request the loop would
issue (the real loop would block on another HTTP call). -/
inductive AggResult (α : Type) where
  | ok : List α → AggResult α
  | upstreamEmpty : AggResult α
  | authExpired : AggResult α
  | noResponse : AggResult α
deriving DecidableEq, Repr

/-- The pagination loop of `artist_albums` (`main.py:207-226`).
`offset` is the current request offset; the list holds the provider's
responses in request order.  Returns the list of offsets actually
requested together with the result.  Each iteration: a 204 status
returns "whoops 204" (`upstreamEmpty`); a body without `items` returns
"uh oh no items" (`authExpired`); otherwise the items are appended and,
when `next` is not null, the offset grows by 50 and the loop
continues. -/
def artist_albums_loop (offset : Nat) :
    List (PageResponse α) → List Nat × AggResult α
  | [] => ([], .noResponse)
  | .noContent :: _ => ([offset], .upstreamEmpty)
  | .body none _ :: _ => ([offset], .authExpired)
  | .body (some its) none :: _ => ([offset], .ok its)
  | .body (some its) (some _) :: rest =>
      let r := artist_albums_loop (offset + 50) rest
      (offset :: r.1,
       match r.2 with
       | .ok more => .ok (its ++ more)
       | .upstreamEmpty => .upstreamEmpty
       | .authExpired => .authExpired
       | .noResponse => .noResponse)

/-- The pagination of `artist_albums` starts at offset 0
(`main.py:205`). -/
def artist_albums_fetch (pages : List (PageResponse α)) :
    List Nat × AggResult α :=
  artist_albums_loop 0 pages

/-- Comparison key of the sort at `main.py:236`:
`album_data.sort(key=lambda x: x["release_date"])`. -/
def albumLe (a b : Album) : Bool :=
  a.release_date ≤ b.release_date

/-- The in-place stable sort `album_data.sort(key=...)` at
`main.py:236`, ascending by the `release_date` string. -/
def sortAlbums (l : List Album) : List Album :=
  l.mergeSort albumLe

/-- Test for the "albums" group filter at `main.py:240`. -/
def isAlbumType (x : Album) : Bool := x.type == "album"

/-- Test for the "singles" group filter at `main.py:241`. -/
def isSingleType (x : Album) : Bool := x.type == "single"

/-- Test for the "compilations" group filter at `main.py:242`. -/
def isCompilationType (x : Album) : Bool := x.type == "compilation"

/-- Test for the "other" group filter at `main.py:243`:
`x["type"] not in ("album", "single", "compilation")`. -/
def isOtherType (x : Album) : Bool :=
  !(x.type == "album" || x.type == "single" || x.type == "compilation")

/-- The template context built for the categories mode
(`main.py:239-246`), from the already-sorted album data. -/
structure CategoriesView where
  albums : List Album
  singles : List Album
  compilations : List Album
  other : List Album
  count : Nat
deriving DecidableEq, Repr

/-- The template context built for the chronological mode
(`main.py:251-255`). -/
structure ChronologicalView where
  albums : List Album
  count : Nat
deriving DecidableEq, Repr

/-- The data handed to one of the two templates by `artist_albums`. -/
inductive AlbumsView where
  | categories : CategoriesView → AlbumsView
  | chronological : ChronologicalView → AlbumsView
deriving DecidableEq, Repr

/-- The four filters and count of the categories branch
(`main.py:239-246`), applied to the sorted data. -/
def categories_view (sorted : List Album) : CategoriesView :=
  { albums := sorted.filter isAlbumType,
    singles := sorted.filter isSingleType,
    compilations := sorted.filter isCompilationType,
    other := sorted.filter isOtherType,
    count := sorted.length }

/-- The presentation dispatch of `artist_albums` (`main.py:236-257`):
sort by release date, then the categories view when `display_type` is
`"categories"` or `""`, else the chronological view. -/
def artist_albums_view (display_type : String) (album_data : List Album) :
    AlbumsView :=
  let sorted := sortAlbums album_data
  if display_type = "categories" ∨ display_type = "" then
    .categories (categories_view sorted)
  else
    .chronological { albums := sorted, count := sorted.length }

/-- One artist object inside the currently-playing item
(`main.py:311`). -/
structure SpotifyArtist where
  name : String
  id : String
deriving DecidableEq, Repr

/-- The `item` object of the currently-playing body, with the fields
`get_data` reads (`main.py:306-318`). -/
structure PlayingItem where
  album_images : List String
  album_name : String
  name : String
  duration_ms : Nat
  uri : String
  artists : List SpotifyArtist
deriving DecidableEq, Repr

/-- Parsed body of the currently-playing response (`main.py:300-317`):
`item` may be missing (token rejected). -/
structure CurrentlyPlayingBody where
  item : Option PlayingItem
  progress_ms : Nat
  is_playing : Bool
deriving DecidableEq, Repr

/-- The currently-playing response as `get_data` sees it
(`main.py:287-300`): HTTP 204 with no body, or a parsed body. -/
inductive CurrentlyPlayingResponse where
  | noContent : CurrentlyPlayingResponse
  | body : CurrentlyPlayingBody → CurrentlyPlayingResponse
deriving DecidableEq, Repr

/-- The dictionary `get_data` returns when something is playing
(`main.py:308-319`). -/
structure TrackData where
  img_src : String
  artists : List (String × String)
  album_name : String
  track_name : String
  track_ms_total : Nat
  track_ms_progress : Nat
  track_is_playing : Bool
  track_uri : String
deriving DecidableEq, Repr

/-- Caller-visible outcome of `get_data`: the
`{"error": "nothing_playing", "nothing_playing": True}` dictionary, the
Python `None` (callers then redirect to re-login), or the track data. -/
inductive GetDataResult where
  | nothingPlaying : GetDataResult
  | relogin : GetDataResult
  | playing : TrackData → GetDataResult
deriving DecidableEq, Repr

/-- The `get_data` function (`main.py:287-319`).  A 204 yields the
nothing-playing dictionary; a body without `item` yields `None`
(modelled `relogin`); otherwise the track dictionary is built.  Returns
`none` when the album image list is empty, where the source would raise
an out-of-range error. -/
def get_data : CurrentlyPlayingResponse → Option GetDataResult
  | .noContent => some .nothingPlaying
  | .body b =>
      match b.item with
      | none => some .relogin
      | some it =>
          match it.album_images.head? with
          | none => none
          | some img =>
              some (.playing
                { img_src := img,
                  artists := it.artists.map (fun x => (x.name, x.id)),
                  album_name := it.album_name,
                  track_name := it.name,
                  track_ms_total := it.duration_ms,
                  track_ms_progress := b.progress_ms,
                  track_is_playing := b.is_playing,
                  track_uri := it.uri })

/-- A row of the `users` table, with the two fields `login_callback`
touches (`main.py:62-64`). -/
structure UserRec where
  spotify_id : String
  spotify_token : String
deriving DecidableEq, Repr

/-- The account upsert of `login_callback` (`main.py:371-380`): the
first record matching the authenticated `spotify_id` gets its token
overwritten; when none matches, a new record is added.  The list models
the `users` table in insertion order, `filter_by(...).first()` being
the first match. -/
def login_callback_upsert (sid token : String) :
    List UserRec → List UserRec
  | [] => [{ spotify_id := sid, spotify_token := token }]
  | u :: rest =>
      if u.spotify_id = sid then
        { spotify_id := sid, spotify_token := token } :: rest
      else
        u :: login_callback_upsert sid token rest

/-! ## Lemmas about the pagination loop -/

/-- A run of well-formed "continue" pages (each with items present and a
non-null `next`) in front of the remaining responses: the loop requests
each of them at consecutive offsets 50 apart, accumulates their items in
order, and then proceeds with the remaining responses. -/
theorem artist_albums_loop_append (offset : Nat)
    (mids : List (List α × String)) (rest : List (PageResponse α)) :
    artist_albums_loop offset
      ((mids.map fun m => PageResponse.body (some m.1) (some m.2)) ++ rest) =
    ((List.range mids.length).map (fun k => offset + 50 * k) ++
       (artist_albums_loop (offset + 50 * mids.length) rest).1,
     match (artist_albums_loop (offset + 50 * mids.length) rest).2 with
     | .ok more => .ok ((mids.map Prod.fst).flatten ++ more)
     | .upstreamEmpty => .upstreamEmpty
     | .authExpired => .authExpired
     | .noResponse => .noResponse) := by
  induction mids generalizing offset with
  | nil =>
      rcases hr : artist_albums_loop offset rest with ⟨offs, res⟩
      simp only [List.map_nil, List.nil_append, List.length_nil, Nat.mul_zero,
        Nat.add_zero, List.range_zero, hr, List.flatten_nil]
      cases res <;> rfl
  | cons m ms ih =>
      have hoffs :
          offset :: (List.range ms.length).map (fun k => offset + 50 + 50 * k)
            = (List.range (ms.length + 1)).map (fun k => offset + 50 * k) := by
        rw [List.range_succ_eq_map, List.map_cons, List.map_map]
        refine congrArg₂ _ (by omega) (List.map_congr_left ?_)
        intro k _
        simp [Nat.succ_eq_add_one]
        omega
      have hstep :
          artist_albums_loop offset
            ((List.map (fun p => PageResponse.body (some p.1) (some p.2)) (m :: ms)) ++ rest)
            = (offset :: (artist_albums_loop (offset + 50)
                  (List.map (fun p => PageResponse.body (some p.1) (some p.2)) ms ++ rest)).1,
               match (artist_albums_loop (offset + 50)
                  (List.map (fun p => PageResponse.body (some p.1) (some p.2)) ms ++ rest)).2 with
               | .ok more => .ok (m.1 ++ more)
               | .upstreamEmpty => .upstreamEmpty
               | .authExpired => .authExpired
               | .noResponse => .noResponse) := rfl
      rw [hstep, ih (offset + 50),
        show offset + 50 + 50 * ms.length = offset + 50 * (ms.length + 1) from by ring]
      simp only [List.length_cons]
      rcases hr : artist_albums_loop (offset + 50 * (ms.length + 1)) rest with ⟨offs, res⟩
      refine congrArg₂ Prod.mk ?_ ?_
      · rw [← List.cons_append, hoffs]
      · cases res <;> simp [List.append_assoc]

/-! ## Claims about pagination (C1-C4) -/

/-- C1: for every sequence of page responses in which every page carries
an `items` list, every non-final page has a `next` url and the final
page has `next = none`, the aggregation terminates with exactly the
concatenation of the pages' items in request order, the requests being
issued at offsets 0, 50, 100, ... (fixed page size 50, starting at
offset 0). -/
theorem artist_albums_agg_concat (mids : List (List α × String))
    (last : List α) :
    artist_albums_fetch
      ((mids.map fun m => PageResponse.body (some m.1) (some m.2)) ++
        [PageResponse.body (some last) none]) =
      ((List.range (mids.length + 1)).map (fun k => 50 * k),
       AggResult.ok ((mids.map Prod.fst ++ [last]).flatten)) := by
  have h := artist_albums_loop_append 0 mids [PageResponse.body (some last) none]
  simp only [artist_albums_fetch, artist_albums_loop] at h ⊢
  rw [h]
  refine congrArg₂ _ ?_ (by simp)
  rw [List.range_succ, List.map_append]
  simp

/-- C2: the two-page scenario — page 1 with 50 items and a `next` url,
page 2 with 3 items and `next = null` — yields exactly the 53 items of
both pages, exactly the two requests at offsets 0 and 50, and no offset
is fetched twice. -/
theorem artist_albums_two_pages_scenario :
    artist_albums_fetch
      [PageResponse.body (some (List.range 50)) (some "url"),
       PageResponse.body (some (List.range 3)) none]
      = ([0, 50], AggResult.ok (List.range 50 ++ List.range 3))
    ∧ (List.range 50 ++ List.range 3).length = 53
    ∧ ([0, 50] : List Nat).length = 2
    ∧ ([0, 50] : List Nat).Nodup := by
  refine ⟨rfl, rfl, rfl, by decide⟩

/-- C3: when the loop meets a 204 (no-content) page response after any
run of well-formed "continue" pages, it returns the "whoops 204"
condition (`upstreamEmpty`) at once: exactly one request beyond the
prefix is made, none of the later responses is requested, and the
result is not an album sequence. -/
theorem artist_albums_page_204_upstream_empty
    (befs : List (List α × String)) (after : List (PageResponse α)) :
    artist_albums_fetch
      ((befs.map fun m => PageResponse.body (some m.1) (some m.2)) ++
        PageResponse.noContent :: after)
      = ((List.range (befs.length + 1)).map (fun k => 50 * k),
         AggResult.upstreamEmpty) := by
  have h := artist_albums_loop_append 0 befs (PageResponse.noContent :: after)
  simp only [artist_albums_fetch, artist_albums_loop] at h ⊢
  rw [h]
  refine congrArg₂ _ ?_ rfl
  rw [List.range_succ, List.map_append]
  simp

/-- C4: when the loop meets a page response whose body has no `items`
field after any run of well-formed "continue" pages, it returns the
"uh oh no items" condition (`authExpired`) at once: exactly one request
beyond the prefix is made, none of the later responses is requested,
and the result is not an album sequence. -/
theorem artist_albums_missing_items_auth_expired
    (befs : List (List α × String)) (nxt : Option String)
    (after : List (PageResponse α)) :
    artist_albums_fetch
      ((befs.map fun m => PageResponse.body (some m.1) (some m.2)) ++
        PageResponse.body none nxt :: after)
      = ((List.range (befs.length + 1)).map (fun k => 50 * k),
         AggResult.authExpired) := by
  have h := artist_albums_loop_append 0 befs (PageResponse.body none nxt :: after)
  simp only [artist_albums_fetch, artist_albums_loop] at h ⊢
  rw [h]
  refine congrArg₂ _ ?_ rfl
  rw [List.range_succ, List.map_append]
  simp

/-! ## Normalization and presentation (C5-C7, C10) -/

/-- C5 counterexample: a raw item without a `release_date` field is
normalized with the sentinel `"?"` (from `x.get("release_date", "?")`),
not with the sentinel `"unknown"` the claim names. -/
theorem release_date_sentinel_not_unknown :
    (normalizeAlbum { images := ["img"], release_date := none,
                      spotify_url := none, album_type := "album" }).map
        Album.release_date = some "?"
    ∧ ¬ ((normalizeAlbum { images := ["img"], release_date := none,
                           spotify_url := none, album_type := "album" }).map
          Album.release_date = some "unknown") := by
  constructor
  · rfl
  · intro h
    simp [normalizeAlbum] at h

/-- C5 (amended): for every raw provider album item with no
`release_date` field, the normalized Album record's `release_date` is
the sentinel string `"?"`. -/
theorem release_date_sentinel_question_mark (x : RawAlbum)
    (h : x.release_date = none) (a : Album)
    (ha : normalizeAlbum x = some a) :
    a.release_date = "?" := by
  unfold normalizeAlbum at ha
  cases him : x.images.head? with
  | none => rw [him] at ha; cases ha
  | some img =>
      rw [him] at ha
      cases ha
      simp [h]

/-- Witness for C5's amended theorem at a concrete raw item. -/
theorem release_date_sentinel_question_mark_witness :
    ({ images := ["i"], release_date := none, spotify_url := none,
       album_type := "album" } : RawAlbum).release_date = none
    ∧ normalizeAlbum { images := ["i"], release_date := none,
                       spotify_url := none, album_type := "album" }
        = some { image_url := "i", release_date := "?", spotify_url := "?",
                 type := "album" }
    ∧ ({ image_url := "i", release_date := "?", spotify_url := "?",
         type := "album" } : Album).release_date = "?" :=
  ⟨rfl, rfl,
   release_date_sentinel_question_mark
     { images := ["i"], release_date := none, spotify_url := none,
       album_type := "album" } rfl
     { image_url := "i", release_date := "?", spotify_url := "?",
       type := "album" } rfl⟩

/-- C6: in the categories presentation mode, a record is placed in the
"other" group exactly when its type is none of "album", "single",
"compilation" (so a type like "ep" lands in "other"), and in the group
of its type otherwise. -/
theorem categories_ep_to_other (data : List Album) (a : Album)
    (h : a ∈ data) :
    artist_albums_view "categories" data
      = AlbumsView.categories (categories_view (sortAlbums data))
    ∧ (a ∈ (categories_view (sortAlbums data)).other ↔
        (a.type ≠ "album" ∧ a.type ≠ "single" ∧ a.type ≠ "compilation"))
    ∧ (a ∈ (categories_view (sortAlbums data)).albums ↔ a.type = "album")
    ∧ (a ∈ (categories_view (sortAlbums data)).singles ↔ a.type = "single")
    ∧ (a ∈ (categories_view (sortAlbums data)).compilations ↔
        a.type = "compilation") := by
  have hmem : a ∈ sortAlbums data := by
    simpa [sortAlbums] using h
  refine ⟨by simp [artist_albums_view], ?_, ?_, ?_, ?_⟩ <;>
    simp [categories_view, List.mem_filter, hmem, isOtherType, isAlbumType,
      isSingleType, isCompilationType, and_assoc]

/-- Witness for C6 at a concrete "ep"-typed record. -/
theorem categories_ep_to_other_witness :
    ({ image_url := "i", release_date := "2020", spotify_url := "s",
       type := "ep" } : Album)
        ∈ [({ image_url := "i", release_date := "2020", spotify_url := "s",
              type := "ep" } : Album)]
    ∧ (artist_albums_view "categories"
          [({ image_url := "i", release_date := "2020", spotify_url := "s",
              type := "ep" } : Album)]
        = AlbumsView.categories (categories_view (sortAlbums
            [({ image_url := "i", release_date := "2020", spotify_url := "s",
                type := "ep" } : Album)]))
      ∧ (({ image_url := "i", release_date := "2020", spotify_url := "s",
            type := "ep" } : Album)
            ∈ (categories_view (sortAlbums
                [({ image_url := "i", release_date := "2020",
                    spotify_url := "s", type := "ep" } : Album)])).other ↔
          (({ image_url := "i", release_date := "2020", spotify_url := "s",
              type := "ep" } : Album).type ≠ "album"
            ∧ ({ image_url := "i", release_date := "2020", spotify_url := "s",
                 type := "ep" } : Album).type ≠ "single"
            ∧ ({ image_url := "i", release_date := "2020", spotify_url := "s",
                 type := "ep" } : Album).type ≠ "compilation"))
      ∧ (({ image_url := "i", release_date := "2020", spotify_url := "s",
            type := "ep" } : Album)
            ∈ (categories_view (sortAlbums
                [({ image_url := "i", release_date := "2020",
                    spotify_url := "s", type := "ep" } : Album)])).albums ↔
          ({ image_url := "i", release_date := "2020", spotify_url := "s",
             type := "ep" } : Album).type = "album")
      ∧ (({ image_url := "i", release_date := "2020", spotify_url := "s",
            type := "ep" } : Album)
            ∈ (categories_view (sortAlbums
                [({ image_url := "i", release_date := "2020",
                    spotify_url := "s", type := "ep" } : Album)])).singles ↔
          ({ image_url := "i", release_date := "2020", spotify_url := "s",
             type := "ep" } : Album).type = "single")
      ∧ (({ image_url := "i", release_date := "2020", spotify_url := "s",
            type := "ep" } : Album)
            ∈ (categories_view (sortAlbums
                [({ image_url := "i", release_date := "2020",
                    spotify_url := "s", type := "ep" } : Album)])).compilations ↔
          ({ image_url := "i", release_date := "2020", spotify_url := "s",
             type := "ep" } : Album).type = "compilation")) :=
  ⟨List.mem_singleton.mpr rfl,
   categories_ep_to_other _ _ (List.mem_singleton.mpr rfl)⟩

/-- C10: the album listing selects the grouped categories view exactly
when the caller-supplied display-mode string is `"categories"` or the
empty string; every other string yields the chronological view, so no
mode value is rejected. -/
theorem display_mode_dispatch (dt : String) (data : List Album) :
    (artist_albums_view dt data
        = AlbumsView.categories (categories_view (sortAlbums data))
      ↔ (dt = "categories" ∨ dt = ""))
    ∧ (artist_albums_view dt data
        = AlbumsView.chronological
            { albums := sortAlbums data, count := (sortAlbums data).length }
      ↔ ¬ (dt = "categories" ∨ dt = "")) := by
  by_cases h : dt = "categories" ∨ dt = "" <;>
    simp [artist_albums_view, h]

/-! ## The currently-playing 204 branch (C9) -/

/-- C9: when the currently-playing call returns status 204, `get_data`
returns the `{"error": "nothing_playing"}` dictionary — not the `None`
re-authentication signal and not a failure. -/
theorem get_data_204_nothing_playing :
    get_data CurrentlyPlayingResponse.noContent
        = some GetDataResult.nothingPlaying
    ∧ get_data CurrentlyPlayingResponse.noContent
        ≠ some GetDataResult.relogin
    ∧ get_data CurrentlyPlayingResponse.noContent ≠ none := by
  refine ⟨rfl, by simp [get_data], by simp [get_data]⟩

/-! ## Sorting and partition facts for C7 -/

/-- The four category filters split any album list without loss or
duplication: their lengths sum to the length of the list. -/
theorem length_four_filters (l : List Album) :
    (l.filter isAlbumType).length + (l.filter isSingleType).length
      + (l.filter isCompilationType).length
      + (l.filter isOtherType).length = l.length := by
  induction l with
  | nil => rfl
  | cons x xs ih =>
      by_cases h1 : x.type = "album"
      · have e1 : isAlbumType x = true := by simp only [isAlbumType, h1]; decide
        have e2 : isSingleType x = false := by simp only [isSingleType, h1]; decide
        have e3 : isCompilationType x = false := by
          simp only [isCompilationType, h1]; decide
        have e4 : isOtherType x = false := by simp only [isOtherType, h1]; decide
        simp [List.filter_cons, e1, e2, e3, e4]
        omega
      · by_cases h2 : x.type = "single"
        · have e1 : isAlbumType x = false := by
            simp only [isAlbumType, h2]; decide
          have e2 : isSingleType x = true := by
            simp only [isSingleType, h2]; decide
          have e3 : isCompilationType x = false := by
            simp only [isCompilationType, h2]; decide
          have e4 : isOtherType x = false := by
            simp only [isOtherType, h2]; decide
          simp [List.filter_cons, e1, e2, e3, e4]
          omega
        · by_cases h3 : x.type = "compilation"
          · have e1 : isAlbumType x = false := by
              simp only [isAlbumType, h3]; decide
            have e2 : isSingleType x = false := by
              simp only [isSingleType, h3]; decide
            have e3 : isCompilationType x = true := by
              simp only [isCompilationType, h3]; decide
            have e4 : isOtherType x = false := by
              simp only [isOtherType, h3]; decide
            simp [List.filter_cons, e1, e2, e3, e4]
            omega
          · have e1 : isAlbumType x = false := by
              simp only [isAlbumType, beq_eq_false_iff_ne, ne_eq]
              exact h1
            have e2 : isSingleType x = false := by
              simp only [isSingleType, beq_eq_false_iff_ne, ne_eq]
              exact h2
            have e3 : isCompilationType x = false := by
              simp only [isCompilationType, beq_eq_false_iff_ne, ne_eq]
              exact h3
            have e4 : isOtherType x = true := by
              simp only [isOtherType]
              simp only [isAlbumType] at e1
              simp only [isSingleType] at e2
              simp only [isCompilationType] at e3
              rw [e1, e2, e3]
              decide
            simp [List.filter_cons, e1, e2, e3, e4]
            omega

/-- The sort key comparison is transitive. -/
theorem albumLe_trans (a b c : Album) (hab : albumLe a b) (hbc : albumLe b c) :
    albumLe a c := by
  simp only [albumLe, decide_eq_true_eq] at *
  exact le_trans hab hbc

/-- The sort key comparison is total. -/
theorem albumLe_total (a b : Album) : albumLe a b || albumLe b a := by
  simp only [albumLe, Bool.or_eq_true, decide_eq_true_eq]
  exact le_total _ _

/-- C7: the chronological mode returns the full sequence sorted
ascending by release_date (a permutation of the input, unfiltered), and
the categories mode partitions that same sorted sequence into four
groups by type, each group a filter — hence a sublist — of the sorted
sequence, preserving relative order, with group sizes summing to the
whole. -/
theorem views_sorted_and_stable_partition (data : List Album) :
    artist_albums_view "chronological" data
      = AlbumsView.chronological
          { albums := sortAlbums data, count := (sortAlbums data).length }
    ∧ (sortAlbums data).Pairwise
        (fun a b => a.release_date ≤ b.release_date)
    ∧ (sortAlbums data).Perm data
    ∧ (categories_view (sortAlbums data)).albums
        = (sortAlbums data).filter isAlbumType
    ∧ (categories_view (sortAlbums data)).singles
        = (sortAlbums data).filter isSingleType
    ∧ (categories_view (sortAlbums data)).compilations
        = (sortAlbums data).filter isCompilationType
    ∧ (categories_view (sortAlbums data)).other
        = (sortAlbums data).filter isOtherType
    ∧ (categories_view (sortAlbums data)).albums.Sublist (sortAlbums data)
    ∧ (categories_view (sortAlbums data)).singles.Sublist (sortAlbums data)
    ∧ (categories_view (sortAlbums data)).compilations.Sublist
        (sortAlbums data)
    ∧ (categories_view (sortAlbums data)).other.Sublist (sortAlbums data)
    ∧ (categories_view (sortAlbums data)).albums.length
        + (categories_view (sortAlbums data)).singles.length
        + (categories_view (sortAlbums data)).compilations.length
        + (categories_view (sortAlbums data)).other.length
        = (sortAlbums data).length
    ∧ (categories_view (sortAlbums data)).count = data.length := by
  refine ⟨by simp [artist_albums_view], ?_, ?_, rfl, rfl, rfl, rfl,
    List.filter_sublist _, List.filter_sublist _, List.filter_sublist _,
    List.filter_sublist _, length_four_filters _, ?_⟩
  · exact (List.sorted_mergeSort albumLe_trans albumLe_total data).imp
      (fun h => by simpa [albumLe, decide_eq_true_eq] using h)
  · exact List.mergeSort_perm data albumLe
  · exact (List.mergeSort_perm data albumLe).length_eq

/-! ## Login-callback upsert (C8) -/

/-- When no account carries the authenticated subject id, the upsert
appends exactly one new record and leaves the rest untouched. -/
theorem upsert_of_not_mem (sid tok : String) (db : List UserRec)
    (h : sid ∉ db.map UserRec.spotify_id) :
    login_callback_upsert sid tok db
      = db ++ [{ spotify_id := sid, spotify_token := tok }] := by
  induction db with
  | nil => rfl
  | cons u rest ih =>
      simp only [List.map_cons, List.mem_cons] at h
      push_neg at h
      simp only [login_callback_upsert]
      rw [if_neg (fun he => h.1 he.symm), ih h.2, List.cons_append]

/-- When an account carries the authenticated subject id, the upsert
leaves the list of subject ids unchanged. -/
theorem upsert_map_of_mem (sid tok : String) (db : List UserRec)
    (h : sid ∈ db.map UserRec.spotify_id) :
    (login_callback_upsert sid tok db).map UserRec.spotify_id
      = db.map UserRec.spotify_id := by
  induction db with
  | nil => cases h
  | cons u rest ih =>
      by_cases he : u.spotify_id = sid
      · simp only [login_callback_upsert, if_pos he, List.map_cons]
        rw [he]
      · have h' : sid ∈ rest.map UserRec.spotify_id := by
          simp only [List.map_cons, List.mem_cons] at h
          rcases h with h | h
          · exact absurd h.symm he
          · exact h
        simp only [login_callback_upsert, if_neg he, List.map_cons, ih h']

/-- When an account carries the authenticated subject id, the upsert
leaves a record with that id and the new token in the table. -/
theorem upsert_new_mem (sid tok : String) (db : List UserRec)
    (h : sid ∈ db.map UserRec.spotify_id) :
    ({ spotify_id := sid, spotify_token := tok } : UserRec)
      ∈ login_callback_upsert sid tok db := by
  induction db with
  | nil => cases h
  | cons u rest ih =>
      by_cases he : u.spotify_id = sid
      · simp only [login_callback_upsert, if_pos he]
        exact List.mem_cons_self _ _
      · have h' : sid ∈ rest.map UserRec.spotify_id := by
          simp only [List.map_cons, List.mem_cons] at h
          rcases h with h | h
          · exact absurd h.symm he
          · exact h
        simp only [login_callback_upsert, if_neg he]
        exact List.mem_cons_of_mem _ (ih h')

/-- The upsert never deletes: every record whose subject id differs
from the authenticated one survives. -/
theorem upsert_keeps (sid tok : String) (db : List UserRec) (u : UserRec)
    (hu : u ∈ db) (hne : u.spotify_id ≠ sid) :
    u ∈ login_callback_upsert sid tok db := by
  induction db with
  | nil => cases hu
  | cons v rest ih =>
      rcases List.mem_cons.mp hu with h | h
      · by_cases he : v.spotify_id = sid
        · exact absurd (h ▸ he) hne
        · simp only [login_callback_upsert, if_neg he]
          exact h ▸ List.mem_cons_self _ _
      · by_cases he : v.spotify_id = sid
        · simp only [login_callback_upsert, if_pos he]
          exact List.mem_cons_of_mem _ h
        · simp only [login_callback_upsert, if_neg he]
          exact List.mem_cons_of_mem _ (ih h)

/-- C8: starting from a table whose provider subject ids are unique,
the login callback's upsert preserves that uniqueness; when a record
with the authenticated subject id exists, the table size is unchanged
and that record now holds the new token (overwrite, no new record);
when none exists, exactly one record is appended; and no record with a
different subject id is ever deleted. -/
theorem login_upsert_preserves_uniqueness (sid tok : String)
    (db : List UserRec) (h : (db.map UserRec.spotify_id).Nodup) :
    ((login_callback_upsert sid tok db).map UserRec.spotify_id).Nodup
    ∧ (sid ∈ db.map UserRec.spotify_id →
        (login_callback_upsert sid tok db).length = db.length
        ∧ ({ spotify_id := sid, spotify_token := tok } : UserRec)
            ∈ login_callback_upsert sid tok db)
    ∧ (sid ∉ db.map UserRec.spotify_id →
        login_callback_upsert sid tok db
          = db ++ [{ spotify_id := sid, spotify_token := tok }])
    ∧ (∀ u ∈ db, u.spotify_id ≠ sid →
        u ∈ login_callback_upsert sid tok db) := by
  refine ⟨?_, fun hm => ⟨?_, upsert_new_mem _ _ _ hm⟩,
    fun hn => upsert_of_not_mem _ _ _ hn,
    fun u hu hne => upsert_keeps _ _ _ _ hu hne⟩
  · by_cases hm : sid ∈ db.map UserRec.spotify_id
    · rw [upsert_map_of_mem _ _ _ hm]
      exact h
    · rw [upsert_of_not_mem _ _ _ hm, List.map_append]
      simp [List.nodup_append, h, hm, List.disjoint_singleton]
  · have hlen := congrArg List.length (upsert_map_of_mem sid tok db hm)
    simpa using hlen

/-- Witness for C8: a one-account table and a fresh subject id. -/
theorem login_upsert_preserves_uniqueness_witness :
    (([{ spotify_id := "alice", spotify_token := "t1" }] : List UserRec).map
        UserRec.spotify_id).Nodup
    ∧ (((login_callback_upsert "bob" "t2"
            [{ spotify_id := "alice", spotify_token := "t1" }]).map
          UserRec.spotify_id).Nodup
      ∧ ("bob" ∈ ([{ spotify_id := "alice", spotify_token := "t1" }] :
            List UserRec).map UserRec.spotify_id →
          (login_callback_upsert "bob" "t2"
              [{ spotify_id := "alice", spotify_token := "t1" }]).length
            = ([{ spotify_id := "alice", spotify_token := "t1" }] :
                List UserRec).length
          ∧ ({ spotify_id := "bob", spotify_token := "t2" } : UserRec)
              ∈ login_callback_upsert "bob" "t2"
                  [{ spotify_id := "alice", spotify_token := "t1" }])
      ∧ ("bob" ∉ ([{ spotify_id := "alice", spotify_token := "t1" }] :
            List UserRec).map UserRec.spotify_id →
          login_callback_upsert "bob" "t2"
              [{ spotify_id := "alice", spotify_token := "t1" }]
            = [{ spotify_id := "alice", spotify_token := "t1" }]
                ++ [{ spotify_id := "bob", spotify_token := "t2" }])
      ∧ (∀ u ∈ ([{ spotify_id := "alice", spotify_token := "t1" }] :
            List UserRec), u.spotify_id ≠ "bob" →
          u ∈ login_callback_upsert "bob" "t2"
                [{ spotify_id := "alice", spotify_token := "t1" }])) :=
  ⟨by decide,
   login_upsert_preserves_uniqueness "bob" "t2"
     [{ spotify_id := "alice", spotify_token := "t1" }] (by decide)⟩
